import Mathlib

/-!
Shallow embedding of the voice-cloning pipeline from
`src/genAIcapstoneproject.ipynb`.

The notebook defines four functions:

* `detect_text_emotion(text)` — text classifier, label mapped through
  `emotion_map = {joy: happy, sadness: sad, anger: angry, neutral: neutral}`
  with default `"neutral"`; any exception is caught and yields `"neutral"`.
* `extract_emotion(audio_path)` — audio classifier, returns
  `predictions[0]['label'].lower()` (no taxonomy mapping); any exception is
  caught and yields `"neutral"`.
* `evaluate_similarity(original, cloned)` — cosine similarity of the two
  speaker embeddings; any exception is caught and yields `0.0`.
* `clone_voice(text, p1, p2, p3, target_emotion)` — normalizes the supplied
  reference files to `/tmp/processed_i.wav`, raises `ValueError` when no
  reference was supplied, builds `emotion_options` (eagerly calling
  `extract_emotion` on the first processed reference), resolves the emotion,
  synthesizes to `/tmp/output.wav`, validates, and returns a triple
  `(path, similarity, verdict)`; the outer `except` writes a silent
  placeholder `/tmp/error.wav` and returns `(error_path, 0.0, "Error")`.

External collaborators (pydub decoding/export, the two HuggingFace
classifiers, the resemblyzer encoder, the Coqui TTS model) are modelled as an
environment `Env` of black-box functions; `Option`/`Bool` results model the
possibility that a collaborator raises.  Every invocation of a collaborator
is recorded in an event trace so that claims about which models are invoked
(and in which failure path a placeholder file is written) can be stated.
-/

/-- One observable action of the pipeline: a collaborator invocation or the
writing of the silent placeholder file by the error handler. -/
inductive Event where
  | normCall (path : String)
  | textClassifyCall (text : String)
  | audioClassifyCall (path : String)
  | embedCall (path : String)
  | ttsCall (text : String) (refs : List String) (emotion : String)
  | silentWrite (path : String)
deriving DecidableEq

/-- The external collaborators of the pipeline.  A `none` / `false` result
models the collaborator raising an exception. -/
structure Env where
  /-- `AudioSegment.from_file` + `export` on a reference path: does decoding
  and re-export succeed? -/
  decode : String → Bool
  /-- raw label of the text-emotion classifier (`none` = it raises). -/
  textLabel : String → Option String
  /-- raw label of the audio-emotion classifier on a file (`none` = it
  raises, including the `sf.read` failure case). -/
  audioLabel : String → Option String
  /-- speaker embedding of a file (`none` = encoder raises). -/
  embed : String → Option (List ℝ)
  /-- does `TTS(...)` construction plus `tts_to_file(text, refs, emotion)`
  succeed? -/
  ttsOk : String → List String → String → Bool

/-- `tempfile.gettempdir()`. -/
def tempDir : String := "/tmp"

/-- `os.path.join(tempfile.gettempdir(), f"processed_{i}.wav")`. -/
def processedPath (i : Nat) : String := tempDir ++ "/processed_" ++ toString i ++ ".wav"

/-- `os.path.join(tempfile.gettempdir(), "output.wav")`. -/
def outputPath : String := tempDir ++ "/output.wav"

/-- `os.path.join(tempfile.gettempdir(), "error.wav")`. -/
def errorPath : String := tempDir ++ "/error.wav"

/-- Python `str.lower()` (character-wise lowering). -/
def strLower (s : String) : String := ⟨s.data.map Char.toLower⟩

/-- The closed emotion taxonomy `{happy, sad, angry, neutral}`. -/
def taxonomyList : List String := ["happy", "sad", "angry", "neutral"]

/-- `emotion_map.get(label, "neutral")` from `detect_text_emotion`, where
`emotion_map = {"joy": "happy", "sadness": "sad", "anger": "angry",
"neutral": "neutral"}`. -/
def emotionMapGet (l : String) : String :=
  if l = "joy" then "happy"
  else if l = "sadness" then "sad"
  else if l = "anger" then "angry"
  else if l = "neutral" then "neutral"
  else "neutral"

/-- Lookup of a non-empty key in the `emotion_options` dict of `clone_voice`
(the four identity entries, default `"neutral"`). -/
def taxonomyGet (k : String) : String :=
  if k = "happy" then "happy"
  else if k = "sad" then "sad"
  else if k = "angry" then "angry"
  else if k = "neutral" then "neutral"
  else "neutral"

/-- `emotion_options.get(key, "neutral")` where
`emotion_options = {"": auto, "happy": "happy", "sad": "sad",
"angry": "angry", "neutral": "neutral"}` and `auto` is the eagerly computed
`extract_emotion(ref_paths[0])`. -/
def emotionOptionsGet (autoEmo : String) (k : String) : String :=
  if k = "" then autoEmo else taxonomyGet k

/-- Dot product of two embedding vectors (componentwise, truncating like
`zip`). -/
def dotl : List ℝ → List ℝ → ℝ
  | x :: xs, y :: ys => x * y + dotl xs ys
  | _, _ => 0

/-- Euclidean norm of an embedding vector. -/
noncomputable def l2norm (a : List ℝ) : ℝ := Real.sqrt (dotl a a)

/-- `sklearn.metrics.pairwise.cosine_similarity` of two embedding vectors. -/
noncomputable def cosineSim (a b : List ℝ) : ℝ := dotl a b / (l2norm a * l2norm b)

/-- `detect_text_emotion(text)`: classify `text`, lower the raw label and map
it through `emotion_map` with default `"neutral"`; on any exception return
`"neutral"`.  The second component is the recorded collaborator trace. -/
def detect_text_emotion (env : Env) (text : String) : String × List Event :=
  ((match env.textLabel text with
    | some lab => emotionMapGet (strLower lab)
    | none => "neutral"),
   [Event.textClassifyCall text])

/-- `extract_emotion(audio_path)`: classify the audio and return
`predictions[0]['label'].lower()`; on any exception return `"neutral"`. -/
def extract_emotion (env : Env) (path : String) : String × List Event :=
  ((match env.audioLabel path with
    | some lab => strLower lab
    | none => "neutral"),
   [Event.audioClassifyCall path])

/-- `evaluate_similarity(original_path, cloned_path)`: cosine similarity of
the two speaker embeddings; on any exception return `0.0`. -/
noncomputable def evaluate_similarity (env : Env) (orig cloned : String) :
    ℝ × List Event :=
  match env.embed orig with
  | none => (0, [Event.embedCall orig])
  | some a =>
    match env.embed cloned with
    | none => (0, [Event.embedCall orig, Event.embedCall cloned])
    | some b => (cosineSim a b, [Event.embedCall orig, Event.embedCall cloned])

/-- The emotion-resolution step of `clone_voice`: user override when
`target_emotion` is non-empty (via `emotion_options.get`), text
classification in auto mode (`target_emotion == ""`). -/
def resolveEmotion (env : Env) (text autoEmo tgt : String) : String × List Event :=
  if tgt = "" then detect_text_emotion env text
  else (emotionOptionsGet autoEmo (strLower tgt), [])

/-- The verdict string construction of `clone_voice`:
`f"{final} (✔)" if cloned == final else f"{final} (✖ Got {cloned})"`. -/
def mkVerdict (finalEmotion cloned : String) : String :=
  if cloned = finalEmotion then finalEmotion ++ " (✔)"
  else finalEmotion ++ " (✖ Got " ++ cloned ++ ")"

/-- `[p for p in [audio_path1, audio_path2, audio_path3] if p]`: drop `None`
and empty-string (falsy) entries, keeping order. -/
def selectedPaths (a1 a2 a3 : Option String) : List String :=
  ([a1, a2, a3].filterMap id).filter (fun s => s != "")

/-- The reference-normalization loop of `clone_voice`: processes the selected
paths in order, writing `/tmp/processed_i.wav` for the `i`-th one.  A decode
failure aborts the loop (`none`), sending control to the outer `except`. -/
def normalizeRefs (env : Env) : List String → Nat → Option (List String) × List Event
  | [], _ => (some [], [])
  | p :: rest, i =>
    if env.decode p then
      let r := normalizeRefs env rest (i + 1)
      (r.1.map (fun others => processedPath i :: others), Event.normCall p :: r.2)
    else (none, [Event.normCall p])

/-- The expected processed-file names `processed_i.wav, ...` for `n`
references starting at index `i`. -/
def processedNames : Nat → Nat → List String
  | _, 0 => []
  | i, n + 1 => processedPath i :: processedNames (i + 1) n

/-- The part of `clone_voice` after reference normalization: the empty-set
precondition check (`raise ValueError`), eager construction of
`emotion_options` (calling `extract_emotion` on the first processed
reference), emotion resolution, synthesis, validation, and the outer
`except` handler which writes the silent placeholder and returns
`(error_path, 0.0, "Error")`. -/
noncomputable def clone_after (env : Env) (text tgt : String) :
    Option (List String) × List Event → (String × ℝ × String) × List Event
  | (none, tr) => ((errorPath, 0, "Error"), tr ++ [Event.silentWrite errorPath])
  | (some [], tr) => ((errorPath, 0, "Error"), tr ++ [Event.silentWrite errorPath])
  | (some (r0 :: rest), tr) =>
    let auto := extract_emotion env r0
    let res := resolveEmotion env text auto.1 tgt
    if env.ttsOk text (r0 :: rest) res.1 then
      let cloned := extract_emotion env outputPath
      let sim := evaluate_similarity env r0 outputPath
      ((outputPath, sim.1, mkVerdict res.1 cloned.1),
       tr ++ auto.2 ++ res.2 ++ [Event.ttsCall text (r0 :: rest) res.1]
          ++ cloned.2 ++ sim.2)
    else
      ((errorPath, 0, "Error"),
       tr ++ auto.2 ++ res.2 ++ [Event.ttsCall text (r0 :: rest) res.1]
          ++ [Event.silentWrite errorPath])

/-- `clone_voice(text, audio_path1, audio_path2, audio_path3, target_emotion)`
from the notebook, returning the result triple together with the trace of
collaborator invocations and placeholder writes. -/
noncomputable def clone_voice (env : Env) (text : String)
    (audio_path1 audio_path2 audio_path3 : Option String)
    (target_emotion : String) : (String × ℝ × String) × List Event :=
  clone_after env text target_emotion
    (normalizeRefs env (selectedPaths audio_path1 audio_path2 audio_path3) 0)

/-- Canonical form of the resolved emotion: it depends on the environment
only through the text classifier.  (Derived characterization, proved equal to
the resolution step below.) -/
def resolveCanon (env : Env) (text tgt : String) : String :=
  if tgt = "" then (detect_text_emotion env text).1
  else taxonomyGet (strLower tgt)

/-- Sample environment: every collaborator succeeds; text label `"joy"`,
audio label `"neu"`, embedding `[1, 0]`. -/
noncomputable def envAllOk : Env :=
  { decode := fun _ => true
    textLabel := fun _ => some "joy"
    audioLabel := fun _ => some "neu"
    embed := fun _ => some [1, 0]
    ttsOk := fun _ _ _ => true }

/-- Sample environment: decoding and synthesis succeed but both classifiers
and the speaker encoder always raise. -/
def envOkNoVal : Env :=
  { decode := fun _ => true
    textLabel := fun _ => none
    audioLabel := fun _ => none
    embed := fun _ => none
    ttsOk := fun _ _ _ => true }

/-- Sample environment: same text classifier as `envAllOk` but different
audio-emotion classifier and failing encoder (models different reference
audio). -/
def envB : Env :=
  { decode := fun _ => true
    textLabel := fun _ => some "joy"
    audioLabel := fun _ => some "ang"
    embed := fun _ => none
    ttsOk := fun _ _ _ => true }

/-- Sample environment: the audio-emotion classifier returns the
out-of-taxonomy label `"Excited"`; the text classifier returns `"anger"`. -/
def envExcited : Env :=
  { decode := fun _ => true
    textLabel := fun _ => some "anger"
    audioLabel := fun _ => some "Excited"
    embed := fun _ => none
    ttsOk := fun _ _ _ => true }

/-- Sample environment: the speaker encoder embeds the first processed
reference as `[1]` and everything else as `[-1]`. -/
noncomputable def envNegEmbed : Env :=
  { decode := fun _ => true
    textLabel := fun _ => some "joy"
    audioLabel := fun _ => some "neu"
    embed := fun p => if p = processedPath 0 then some [1] else some [-1]
    ttsOk := fun _ _ _ => true }

/-- Sample environment: the synthesis collaborator always raises. -/
noncomputable def envTtsFail : Env :=
  { decode := fun _ => true
    textLabel := fun _ => some "joy"
    audioLabel := fun _ => some "neu"
    embed := fun _ => some [1, 0]
    ttsOk := fun _ _ _ => false }

/-! ### Helper lemmas -/

lemma strLower_eq_empty {s : String} (h : strLower s = "") : s = "" := by
  obtain ⟨data⟩ := s
  cases data with
  | nil => rfl
  | cons c cs =>
    have h2 := congrArg String.data h
    simp [strLower] at h2

lemma dotl_self_nonneg (a : List ℝ) : 0 ≤ dotl a a := by
  induction a with
  | nil => simp [dotl]
  | cons x xs ih => simp only [dotl]; nlinarith [mul_self_nonneg x]

lemma dotl_sq_le (a b : List ℝ) : dotl a b ^ 2 ≤ dotl a a * dotl b b := by
  induction a generalizing b with
  | nil => cases b <;> simp [dotl]
  | cons x xs ih =>
    cases b with
    | nil => simp [dotl]
    | cons y ys =>
      have hA := dotl_self_nonneg xs
      have hB := dotl_self_nonneg ys
      have hS := ih ys
      simp only [dotl]
      rcases eq_or_lt_of_le hB with hB0 | hBpos
      · have hS0 : dotl xs ys = 0 := by nlinarith [sq_nonneg (dotl xs ys)]
        rw [hS0, ← hB0]
        nlinarith [mul_nonneg hA (mul_self_nonneg y)]
      · have hABS : 0 ≤ dotl xs xs * dotl ys ys - dotl xs ys ^ 2 := by nlinarith
        nlinarith [sq_nonneg (x * dotl ys ys - y * dotl xs ys),
          mul_nonneg (sq_nonneg y) hABS, mul_nonneg (le_of_lt hBpos) hABS]

lemma abs_cosineSim_le_one (a b : List ℝ) : |cosineSim a b| ≤ 1 := by
  unfold cosineSim l2norm
  have hA := dotl_self_nonneg a
  have hcs := dotl_sq_le a b
  have hd : 0 ≤ Real.sqrt (dotl a a) * Real.sqrt (dotl b b) :=
    mul_nonneg (Real.sqrt_nonneg _) (Real.sqrt_nonneg _)
  rcases eq_or_lt_of_le hd with h0 | hpos
  · rw [← h0]; simp
  · rw [abs_div, abs_of_pos hpos]
    refine div_le_one_of_le₀ ?_ hd
    calc |dotl a b| = Real.sqrt (dotl a b ^ 2) := (Real.sqrt_sq_eq_abs _).symm
      _ ≤ Real.sqrt (dotl a a * dotl b b) := Real.sqrt_le_sqrt hcs
      _ = Real.sqrt (dotl a a) * Real.sqrt (dotl b b) := Real.sqrt_mul hA _

lemma cosineSim_bounds (a b : List ℝ) : -1 ≤ cosineSim a b ∧ cosineSim a b ≤ 1 :=
  abs_le.mp (abs_cosineSim_le_one a b)

lemma taxonomyGet_self {k : String} (h : k ∈ taxonomyList) : taxonomyGet k = k := by
  simp only [taxonomyList, List.mem_cons, List.not_mem_nil, or_false] at h
  rcases h with h | h | h | h <;> simp [taxonomyGet, h]

lemma taxonomyGet_default {k : String} (h : k ∉ taxonomyList) : taxonomyGet k = "neutral" := by
  simp only [taxonomyList, List.mem_cons, List.not_mem_nil, or_false] at h
  push_neg at h
  obtain ⟨h1, h2, h3, h4⟩ := h
  simp [taxonomyGet, h1, h2, h3, h4]

lemma emotionMapGet_mem (l : String) : emotionMapGet l ∈ taxonomyList := by
  unfold emotionMapGet
  repeat' split
  all_goals decide

lemma detect_text_emotion_mem (env : Env) (text : String) :
    (detect_text_emotion env text).1 ∈ taxonomyList := by
  unfold detect_text_emotion
  cases env.textLabel text with
  | none => simp [taxonomyList]
  | some lab => simpa using emotionMapGet_mem (strLower lab)

lemma resolveEmotion_fst (env : Env) (text autoEmo tgt : String) :
    (resolveEmotion env text autoEmo tgt).1 = resolveCanon env text tgt := by
  unfold resolveEmotion resolveCanon emotionOptionsGet
  by_cases h : tgt = ""
  · simp [h]
  · have h2 : strLower tgt ≠ "" := fun hc => h (strLower_eq_empty hc)
    simp [h, h2]

lemma resolveEmotion_snd (env : Env) (text autoEmo tgt : String) :
    (resolveEmotion env text autoEmo tgt).2 =
      if tgt = "" then [Event.textClassifyCall text] else [] := by
  unfold resolveEmotion detect_text_emotion
  by_cases h : tgt = "" <;> simp [h]

lemma resolveCanon_congr {e1 e2 : Env} (text tgt : String)
    (h : e1.textLabel = e2.textLabel) :
    resolveCanon e1 text tgt = resolveCanon e2 text tgt := by
  unfold resolveCanon detect_text_emotion
  rw [h]

lemma extract_emotion_snd (env : Env) (p : String) :
    (extract_emotion env p).2 = [Event.audioClassifyCall p] := rfl

lemma evaluate_similarity_event_shape (env : Env) (o c : String) {e : Event}
    (he : e ∈ (evaluate_similarity env o c).2) : ∃ p, e = Event.embedCall p := by
  rcases h1 : env.embed o with _ | a
  · simp only [evaluate_similarity, h1] at he
    simp at he
    exact ⟨o, he⟩
  · rcases h2 : env.embed c with _ | b
    all_goals
      simp only [evaluate_similarity, h1, h2] at he
      simp at he
      rcases he with h | h
      · exact ⟨o, h⟩
      · exact ⟨c, h⟩

lemma evaluate_similarity_bounds (env : Env) (o c : String) :
    -1 ≤ (evaluate_similarity env o c).1 ∧ (evaluate_similarity env o c).1 ≤ 1 := by
  rcases h1 : env.embed o with _ | a
  · simp [evaluate_similarity, h1]
  · rcases h2 : env.embed c with _ | b
    · simp [evaluate_similarity, h1, h2]
    · simp only [evaluate_similarity, h1, h2]
      simpa using cosineSim_bounds a b

lemma normalizeRefs_event_shape (env : Env) :
    ∀ (l : List String) (i : Nat) {e : Event}, e ∈ (normalizeRefs env l i).2 →
      ∃ p, e = Event.normCall p := by
  intro l
  induction l with
  | nil => intro i e he; simp [normalizeRefs] at he
  | cons q rest ih =>
    intro i e he
    by_cases hq : env.decode q = true
    · simp only [normalizeRefs, hq, if_true] at he
      simp at he
      rcases he with h | h
      · exact ⟨q, h⟩
      · exact ih (i + 1) h
    · simp only [normalizeRefs, hq, if_false] at he
      simp at he
      exact ⟨q, he⟩

lemma normalizeRefs_ok (env : Env) (hd : ∀ p, env.decode p = true) :
    ∀ (l : List String) (i : Nat),
      normalizeRefs env l i = (some (processedNames i l.length), l.map Event.normCall) := by
  intro l
  induction l with
  | nil => intro i; simp [normalizeRefs, processedNames]
  | cons q rest ih =>
    intro i
    simp [normalizeRefs, hd q, ih (i + 1), processedNames]

lemma normalizeRefs_none (env : Env) :
    ∀ (l : List String) (i : Nat) {p : String}, p ∈ l → env.decode p = false →
      (normalizeRefs env l i).1 = none := by
  intro l
  induction l with
  | nil => intro i p hp _; simp at hp
  | cons q rest ih =>
    intro i p hp hdec
    by_cases hq : env.decode q = true
    · rcases List.mem_cons.mp hp with h | h
      · subst h; rw [hq] at hdec; cases hdec
      · have hrec := ih (i + 1) h hdec
        simp [normalizeRefs, hq, hrec]
    · simp [normalizeRefs, hq]

lemma clone_result_shape (env : Env) (text : String) (a1 a2 a3 : Option String)
    (tgt : String) :
    (clone_voice env text a1 a2 a3 tgt).1 = (errorPath, 0, "Error") ∨
      ((clone_voice env text a1 a2 a3 tgt).1).1 = outputPath := by
  unfold clone_voice
  rcases hn : normalizeRefs env (selectedPaths a1 a2 a3) 0 with ⟨o, tr⟩
  rcases o with _ | (_ | ⟨r0, rest⟩)
  · left; simp [clone_after]
  · left; simp [clone_after]
  · by_cases htts :
      env.ttsOk text (r0 :: rest) (resolveEmotion env text (extract_emotion env r0).1 tgt).1 = true
    · right; simp [clone_after, htts]
    · left; simp [clone_after, htts]

lemma clone_sentinel_of_ttsFail (env : Env) (text : String) (a1 a2 a3 : Option String)
    (tgt : String) (h : ∀ t r e, env.ttsOk t r e = false) :
    (clone_voice env text a1 a2 a3 tgt).1 = (errorPath, 0, "Error") := by
  unfold clone_voice
  rcases hn : normalizeRefs env (selectedPaths a1 a2 a3) 0 with ⟨o, tr⟩
  rcases o with _ | (_ | ⟨r0, rest⟩) <;> simp [clone_after, h]

lemma clone_sentinel_of_decodeFail (env : Env) (text : String) (a1 a2 a3 : Option String)
    (tgt : String) {p : String} (hp : p ∈ selectedPaths a1 a2 a3)
    (hdec : env.decode p = false) :
    (clone_voice env text a1 a2 a3 tgt).1 = (errorPath, 0, "Error") := by
  unfold clone_voice
  have h := normalizeRefs_none env (selectedPaths a1 a2 a3) 0 hp hdec
  rcases hn : normalizeRefs env (selectedPaths a1 a2 a3) 0 with ⟨o, tr⟩
  rw [hn] at h
  simp at h
  subst h
  simp [clone_after]

lemma clone_similarity_bounds (env : Env) (text : String) (a1 a2 a3 : Option String)
    (tgt : String) :
    -1 ≤ (clone_voice env text a1 a2 a3 tgt).1.2.1 ∧
      (clone_voice env text a1 a2 a3 tgt).1.2.1 ≤ 1 := by
  unfold clone_voice
  rcases hn : normalizeRefs env (selectedPaths a1 a2 a3) 0 with ⟨o, tr⟩
  rcases o with _ | (_ | ⟨r0, rest⟩)
  · simp [clone_after]
  · simp [clone_after]
  · by_cases htts :
      env.ttsOk text (r0 :: rest) (resolveEmotion env text (extract_emotion env r0).1 tgt).1 = true
    · simp only [clone_after, htts, if_true]
      simpa using evaluate_similarity_bounds env r0 outputPath
    · simp [clone_after, htts]

lemma clone_voice_ok (env : Env) (text : String) (a1 a2 a3 : Option String) (tgt : String)
    (hd : ∀ p, env.decode p = true) (ht : ∀ t r e, env.ttsOk t r e = true)
    (hne : selectedPaths a1 a2 a3 ≠ []) :
    clone_voice env text a1 a2 a3 tgt =
      ((outputPath,
        (evaluate_similarity env (processedPath 0) outputPath).1,
        mkVerdict (resolveEmotion env text (extract_emotion env (processedPath 0)).1 tgt).1
          (extract_emotion env outputPath).1),
       (selectedPaths a1 a2 a3).map Event.normCall
         ++ (extract_emotion env (processedPath 0)).2
         ++ (resolveEmotion env text (extract_emotion env (processedPath 0)).1 tgt).2
         ++ [Event.ttsCall text (processedNames 0 (selectedPaths a1 a2 a3).length)
              (resolveEmotion env text (extract_emotion env (processedPath 0)).1 tgt).1]
         ++ (extract_emotion env outputPath).2
         ++ (evaluate_similarity env (processedPath 0) outputPath).2) := by
  obtain ⟨p, ps, hps⟩ := List.exists_cons_of_ne_nil hne
  unfold clone_voice
  rw [hps, normalizeRefs_ok env hd]
  simp only [List.length_cons, processedNames]
  simp [clone_after, ht]

lemma clone_trace_events (env : Env) (text : String) (a1 a2 a3 : Option String)
    (tgt : String) {e : Event} (he : e ∈ (clone_voice env text a1 a2 a3 tgt).2) :
    (∃ p, e = Event.normCall p) ∨ (∃ p, e = Event.audioClassifyCall p) ∨
      (∃ p, e = Event.embedCall p) ∨ e = Event.silentWrite errorPath ∨
      (tgt = "" ∧ e = Event.textClassifyCall text) ∨
      (∃ r, e = Event.ttsCall text r (resolveCanon env text tgt)) := by
  unfold clone_voice at he
  rcases hn : normalizeRefs env (selectedPaths a1 a2 a3) 0 with ⟨o, tr⟩
  rw [hn] at he
  have htr : ∀ {ev : Event}, ev ∈ tr → ∃ p, ev = Event.normCall p := by
    intro ev hev
    exact normalizeRefs_event_shape env (selectedPaths a1 a2 a3) 0 (by rw [hn]; exact hev)
  rcases o with _ | (_ | ⟨r0, rest⟩)
  · simp only [clone_after] at he
    rcases List.mem_append.mp he with h | h
    · exact Or.inl (htr h)
    · simp at h; subst h
      exact Or.inr (Or.inr (Or.inr (Or.inl rfl)))
  · simp only [clone_after] at he
    rcases List.mem_append.mp he with h | h
    · exact Or.inl (htr h)
    · simp at h; subst h
      exact Or.inr (Or.inr (Or.inr (Or.inl rfl)))
  · have hres : (resolveEmotion env text (extract_emotion env r0).1 tgt).1 =
        resolveCanon env text tgt := resolveEmotion_fst env text _ tgt
    by_cases htts :
      env.ttsOk text (r0 :: rest) (resolveEmotion env text (extract_emotion env r0).1 tgt).1 = true
    · simp only [clone_after, htts, if_true] at he
      simp only [List.append_assoc, List.mem_append] at he
      rcases he with h | h | h | h | h | h
      · exact Or.inl (htr h)
      · rw [extract_emotion_snd] at h
        simp at h; subst h
        exact Or.inr (Or.inl ⟨r0, rfl⟩)
      · rw [resolveEmotion_snd] at h
        by_cases htgt : tgt = ""
        · simp [htgt] at h; subst h
          exact Or.inr (Or.inr (Or.inr (Or.inr (Or.inl ⟨htgt, rfl⟩))))
        · simp [htgt] at h
      · simp at h; subst h
        exact Or.inr (Or.inr (Or.inr (Or.inr (Or.inr ⟨r0 :: rest, by rw [hres]⟩))))
      · rw [extract_emotion_snd] at h
        simp at h; subst h
        exact Or.inr (Or.inl ⟨outputPath, rfl⟩)
      · rcases evaluate_similarity_event_shape env r0 outputPath h with ⟨p, hp⟩
        exact Or.inr (Or.inr (Or.inl ⟨p, hp⟩))
    · simp only [clone_after] at he
      rw [if_neg htts] at he
      simp only [List.append_assoc, List.mem_append] at he
      rcases he with h | h | h | h | h
      · exact Or.inl (htr h)
      · rw [extract_emotion_snd] at h
        simp at h; subst h
        exact Or.inr (Or.inl ⟨r0, rfl⟩)
      · rw [resolveEmotion_snd] at h
        by_cases htgt : tgt = ""
        · simp [htgt] at h; subst h
          exact Or.inr (Or.inr (Or.inr (Or.inr (Or.inl ⟨htgt, rfl⟩))))
        · simp [htgt] at h
      · simp at h; subst h
        exact Or.inr (Or.inr (Or.inr (Or.inr (Or.inr ⟨r0 :: rest, by rw [hres]⟩))))
      · simp at h; subst h
        exact Or.inr (Or.inr (Or.inr (Or.inl rfl)))

/-! ### Claim theorems -/

/-- Claim C1 (amended): `clone_voice` never propagates an exception — it
always returns either the error sentinel `(error_path, 0.0, "Error")` or a
tuple whose audio component is the synthesized output; a synthesis
collaborator that always raises yields exactly the sentinel, and so does a
reference-decoding failure.  (Classification and validation failures are
absorbed inside the sub-steps and do not produce the sentinel, see the
counterexample.) -/
theorem C1_error_contract (env : Env) (text : String) (a1 a2 a3 : Option String)
    (tgt : String) :
    ((clone_voice env text a1 a2 a3 tgt).1 = (errorPath, 0, "Error") ∨
      ((clone_voice env text a1 a2 a3 tgt).1).1 = outputPath) ∧
    ((∀ t r e, env.ttsOk t r e = false) →
      (clone_voice env text a1 a2 a3 tgt).1 = (errorPath, 0, "Error")) ∧
    (∀ p ∈ selectedPaths a1 a2 a3, env.decode p = false →
      (clone_voice env text a1 a2 a3 tgt).1 = (errorPath, 0, "Error")) :=
  ⟨clone_result_shape env text a1 a2 a3 tgt,
   clone_sentinel_of_ttsFail env text a1 a2 a3 tgt,
   fun _ hp hdec => clone_sentinel_of_decodeFail env text a1 a2 a3 tgt hp hdec⟩

/-- Claim C1 witness: with a synthesis collaborator that always raises and
one decodable reference, the result is exactly the sentinel. -/
theorem C1_error_contract_witness :
    (clone_voice envTtsFail "hello" (some "ref.wav") none none "happy").1 =
      (errorPath, 0, "Error") :=
  (C1_error_contract envTtsFail "hello" (some "ref.wav") none none "happy").2.1
    (fun _ _ _ => rfl)

/-- Claim C1 counterexample: when the classification collaborator raises
(and is the only one that raises), `clone_voice` does not return the
`(placeholder, 0.0, "Error")` tuple that the claim demands for every
collaborator exception — the classification failure is absorbed and a
normal result is returned. -/
theorem C1_counterexample :
    envOkNoVal.textLabel "hello" = none ∧
      (clone_voice envOkNoVal "hello" (some "ref.wav") none none "").1 =
        (outputPath, 0, "neutral (✔)") ∧
      outputPath ≠ errorPath ∧ "neutral (✔)" ≠ "Error" :=
  ⟨rfl, rfl, by decide, by decide⟩

/-- Claim C2: a non-empty `requested_emotion` whose lower-cased form is a
taxonomy label resolves to that lower-cased label, for every environment
(hence every classifier behaviour), every text and every auto-detected
audio emotion. -/
theorem C2_override_wins (env : Env) (text autoEmo req : String)
    (h1 : req ≠ "") (h2 : strLower req ∈ taxonomyList) :
    (resolveEmotion env text autoEmo req).1 = strLower req := by
  have h3 : strLower req ≠ "" := fun hc => h1 (strLower_eq_empty hc)
  simp only [resolveEmotion, emotionOptionsGet, if_neg h1, if_neg h3]
  exact taxonomyGet_self h2

/-- Claim C2 witness: `"Angry"` resolves to `"angry"` even though the text
classifier raises and the auto-detected audio emotion is `"happy"`. -/
theorem C2_override_wins_witness :
    ("Angry" ≠ "" ∧ strLower "Angry" ∈ taxonomyList) ∧
      (resolveEmotion envOkNoVal "any text at all" "happy" "Angry").1 = "angry" :=
  ⟨⟨by decide, by decide⟩,
   (C2_override_wins envOkNoVal "any text at all" "happy" "Angry" (by decide)
     (by decide)).trans (by decide)⟩

/-- Claim C3: with empty `requested_emotion` (auto mode) the resolved
emotion is the text classifier's raw label lower-cased and mapped through
`emotion_map` into the closed taxonomy; a classifier failure yields
`"neutral"`; the resolution always lands in the taxonomy; and a
classification failure never prevents the pipeline from returning the
synthesized output. -/
theorem C3_auto_mode (env : Env) (text autoEmo : String) :
    ((env.textLabel text = none → (resolveEmotion env text autoEmo "").1 = "neutral") ∧
      (∀ lab, env.textLabel text = some lab →
        (resolveEmotion env text autoEmo "").1 = emotionMapGet (strLower lab)) ∧
      (resolveEmotion env text autoEmo "").1 ∈ taxonomyList) ∧
      ∀ a1 a2 a3 : Option String, (∀ p, env.decode p = true) →
        (∀ t r e, env.ttsOk t r e = true) → selectedPaths a1 a2 a3 ≠ [] →
        ((clone_voice env text a1 a2 a3 "").1).1 = outputPath := by
  refine ⟨⟨?_, ?_, ?_⟩, ?_⟩
  · intro h; simp [resolveEmotion, detect_text_emotion, h]
  · intro lab h; simp [resolveEmotion, detect_text_emotion, h]
  · simpa [resolveEmotion] using detect_text_emotion_mem env text
  · intro a1 a2 a3 hd ht hne
    rw [clone_voice_ok env text a1 a2 a3 "" hd ht hne]

/-- Claim C3 witness: in an environment whose text classifier raises, auto
mode resolves to `"neutral"` and the pipeline still completes. -/
theorem C3_auto_mode_witness :
    (resolveEmotion envOkNoVal "some text" "happy" "").1 = "neutral" ∧
      ((clone_voice envOkNoVal "some text" (some "ref.wav") none none "").1).1 =
        outputPath := by
  have h := C3_auto_mode envOkNoVal "some text" "happy"
  exact ⟨h.1.1 rfl,
    h.2 (some "ref.wav") none none (fun _ => rfl) (fun _ _ _ => rfl) (by decide)⟩

/-- Claim C4 (amended): calling `clone_voice` with zero reference files
raises `ValueError` before any model is invoked, but the error is caught by
the same outer handler as collaborator failures: the silent placeholder is
written (the only event in the trace) and the same sentinel
`(error_path, 0.0, "Error")` is returned. -/
theorem C4_zero_refs (env : Env) (text tgt : String) :
    clone_voice env text none none none tgt =
      ((errorPath, 0, "Error"), [Event.silentWrite errorPath]) := rfl

/-- Claim C4 counterexample: in the zero-reference path a silent placeholder
file is written (contradicting the claim that no placeholder audio is
generated there) and the result is the same sentinel tuple as for a
collaborator failure. -/
theorem C4_counterexample :
    Event.silentWrite errorPath ∈ (clone_voice envAllOk "hello" none none none "").2 ∧
      (clone_voice envAllOk "hello" none none none "").1 = (errorPath, 0, "Error") :=
  ⟨by decide, rfl⟩

/-- Claim C5 (amended): labels derived from the text classifier are mapped
into the closed taxonomy, but the audio-emotion classifier's label is only
lower-cased, not taxonomy-mapped — `extract_emotion` returns `strLower lab`
for any raw label `lab` (and `"neutral"` only on classifier failure), so the
detected emotion used in the verdict can lie outside
`{happy, sad, angry, neutral}`. -/
theorem C5_taxonomy_mapping (env : Env) (text path : String) :
    (detect_text_emotion env text).1 ∈ taxonomyList ∧
      (∀ lab, env.audioLabel path = some lab →
        (extract_emotion env path).1 = strLower lab) ∧
      (env.audioLabel path = none → (extract_emotion env path).1 = "neutral") := by
  refine ⟨detect_text_emotion_mem env text, ?_, ?_⟩
  · intro lab h; simp [extract_emotion, h]
  · intro h; simp [extract_emotion, h]

/-- Claim C5 witness: the text-classifier result lies in the taxonomy, while
an audio-classifier label `"Excited"` comes back merely lower-cased. -/
theorem C5_taxonomy_mapping_witness :
    (detect_text_emotion envExcited "abc").1 ∈ taxonomyList ∧
      (extract_emotion envExcited "file.wav").1 = "excited" := by
  have h := C5_taxonomy_mapping envExcited "abc" "file.wav"
  exact ⟨h.1, (h.2.1 "Excited" rfl).trans (by decide)⟩

/-- Claim C5 counterexample: the audio-emotion label on the synthesized
waveform is not mapped into the closed taxonomy — with raw label
`"Excited"` the detected emotion is `"excited"`, which is outside the
taxonomy and appears verbatim in the verdict returned by `clone_voice`. -/
theorem C5_counterexample :
    (extract_emotion envExcited outputPath).1 = "excited" ∧
      "excited" ∉ taxonomyList ∧
      ((clone_voice envExcited "some text" (some "r.wav") none none "").1).2.2 =
        "angry (✖ Got excited)" :=
  ⟨rfl, by decide, rfl⟩

/-- Claim C6: the verdict is `"<final> (✔)"` exactly when the detected
emotion equals the resolved one and `"<final> (✖ Got <detected>)"`
otherwise; the concrete sad/sad and sad/angry instances; and the verdict
returned by `clone_voice` on the success path is exactly this string. -/
theorem C6_verdict_format :
    (∀ f c : String, (c = f → mkVerdict f c = f ++ " (✔)") ∧
      (c ≠ f → mkVerdict f c = f ++ " (✖ Got " ++ c ++ ")")) ∧
    mkVerdict "sad" "sad" = "sad (✔)" ∧
    mkVerdict "sad" "angry" = "sad (✖ Got angry)" ∧
    ∀ (env : Env) (text : String) (a1 a2 a3 : Option String) (tgt : String),
      (∀ p, env.decode p = true) → (∀ t r e, env.ttsOk t r e = true) →
      selectedPaths a1 a2 a3 ≠ [] →
      ((clone_voice env text a1 a2 a3 tgt).1).2.2 =
        mkVerdict (resolveEmotion env text (extract_emotion env (processedPath 0)).1 tgt).1
          (extract_emotion env outputPath).1 := by
  refine ⟨?_, by decide, by decide, ?_⟩
  · intro f c
    constructor
    · intro h; simp [mkVerdict, h]
    · intro h; simp [mkVerdict, h]
  · intro env text a1 a2 a3 tgt hd ht hne
    rw [clone_voice_ok env text a1 a2 a3 tgt hd ht hne]

/-- Claim C6 witness: a full pipeline run in which the resolved emotion is
`"sad"` and the detected emotion is `"neu"` yields the mismatch verdict. -/
theorem C6_verdict_format_witness :
    ((clone_voice envAllOk "t" (some "r") none none "sad").1).2.2 =
      "sad (✖ Got neu)" := by
  have h := C6_verdict_format
  exact (h.2.2.2 envAllOk "t" (some "r") none none "sad" (fun _ => rfl)
    (fun _ _ _ => rfl) (by decide)).trans (by decide)

/-- Claim C7 (amended): the similarity returned by `clone_voice` always lies
in `[-1, 1]` (not `[0, 1]`: cosine similarity can be negative, see the
counterexample), with `0.0` as the degraded default; on the success path it
is exactly `evaluate_similarity` of the first (canonical) processed
reference against the synthesized waveform, which is the cosine similarity
of the two speaker embeddings whenever both embeddings are produced. -/
theorem C7_similarity (env : Env) (text : String) (a1 a2 a3 : Option String)
    (tgt : String) :
    (-1 ≤ ((clone_voice env text a1 a2 a3 tgt).1).2.1 ∧
      ((clone_voice env text a1 a2 a3 tgt).1).2.1 ≤ 1) ∧
    ((∀ p, env.decode p = true) → (∀ t r e, env.ttsOk t r e = true) →
      selectedPaths a1 a2 a3 ≠ [] →
      ((clone_voice env text a1 a2 a3 tgt).1).2.1 =
        (evaluate_similarity env (processedPath 0) outputPath).1) ∧
    (∀ va vb, env.embed (processedPath 0) = some va → env.embed outputPath = some vb →
      (evaluate_similarity env (processedPath 0) outputPath).1 = cosineSim va vb) := by
  refine ⟨clone_similarity_bounds env text a1 a2 a3 tgt, ?_, ?_⟩
  · intro hd ht hne
    rw [clone_voice_ok env text a1 a2 a3 tgt hd ht hne]
  · intro va vb hva hvb
    simp [evaluate_similarity, hva, hvb]

/-- Claim C7 witness: with embeddings `[1]` and `[-1]` the similarity
returned by `clone_voice` is the cosine similarity of those embeddings. -/
theorem C7_similarity_witness :
    ((clone_voice envNegEmbed "hi" (some "r") none none "sad").1).2.1 =
      cosineSim [1] [-1] := by
  have h := C7_similarity envNegEmbed "hi" (some "r") none none "sad"
  have hva : envNegEmbed.embed (processedPath 0) = some [1] := by
    show (if processedPath 0 = processedPath 0 then some [1] else some [-1]) = some [1]
    rw [if_pos rfl]
  have hvb : envNegEmbed.embed outputPath = some [-1] := by
    show (if outputPath = processedPath 0 then some [1] else some [-1]) = some [-1]
    rw [if_neg (by decide)]
  exact (h.2.1 (fun _ => rfl) (fun _ _ _ => rfl) (by decide)).trans
    (h.2.2 [1] [-1] hva hvb)

/-- Claim C7 counterexample: with reference embedding `[1]` and output
embedding `[-1]` the similarity returned by `clone_voice` is `-1`, which is
neither in `[0, 1]` nor the degraded default `0.0`. -/
theorem C7_counterexample :
    ((clone_voice envNegEmbed "hi there" (some "ref.wav") none none "happy").1).2.1 = -1 ∧
      ¬((0 ≤ ((clone_voice envNegEmbed "hi there" (some "ref.wav") none none "happy").1).2.1 ∧
          ((clone_voice envNegEmbed "hi there" (some "ref.wav") none none "happy").1).2.1 ≤ 1) ∨
        ((clone_voice envNegEmbed "hi there" (some "ref.wav") none none "happy").1).2.1 = 0) := by
  have hva : envNegEmbed.embed (processedPath 0) = some [1] := by
    show (if processedPath 0 = processedPath 0 then some [1] else some [-1]) = some [1]
    rw [if_pos rfl]
  have hvb : envNegEmbed.embed outputPath = some [-1] := by
    show (if outputPath = processedPath 0 then some [1] else some [-1]) = some [-1]
    rw [if_neg (by decide)]
  have hval : ((clone_voice envNegEmbed "hi there" (some "ref.wav") none none "happy").1).2.1 = -1 := by
    rw [clone_voice_ok envNegEmbed "hi there" (some "ref.wav") none none "happy"
      (fun _ => rfl) (fun _ _ _ => rfl) (by decide)]
    show (evaluate_similarity envNegEmbed (processedPath 0) outputPath).1 = -1
    simp only [evaluate_similarity, hva, hvb]
    unfold cosineSim l2norm
    simp [dotl]
  refine ⟨hval, ?_⟩
  rw [hval]
  norm_num

/-- Claim C8: once synthesis has succeeded, failures inside the validation
sub-steps are absorbed with the safe defaults — encoder failure gives
similarity `0.0`, audio-classifier failure gives detected emotion
`"neutral"` — and the result still carries the synthesized output, never
the full-failure sentinel. -/
theorem C8_validation_absorbed (env : Env) (text : String) (a1 a2 a3 : Option String)
    (tgt : String) (hd : ∀ p, env.decode p = true) (ht : ∀ t r e, env.ttsOk t r e = true)
    (hne : selectedPaths a1 a2 a3 ≠ []) :
    ((clone_voice env text a1 a2 a3 tgt).1).1 = outputPath ∧
    (clone_voice env text a1 a2 a3 tgt).1 ≠ (errorPath, 0, "Error") ∧
    (env.embed (processedPath 0) = none →
      ((clone_voice env text a1 a2 a3 tgt).1).2.1 = 0) ∧
    (env.audioLabel outputPath = none →
      ((clone_voice env text a1 a2 a3 tgt).1).2.2 =
        mkVerdict (resolveEmotion env text (extract_emotion env (processedPath 0)).1 tgt).1
          "neutral") := by
  rw [clone_voice_ok env text a1 a2 a3 tgt hd ht hne]
  refine ⟨rfl, ?_, ?_, ?_⟩
  · intro hcontra
    have h2 : outputPath = errorPath := congrArg Prod.fst hcontra
    exact absurd h2 (by decide)
  · intro hemb
    simp [evaluate_similarity, hemb]
  · intro haud
    simp [extract_emotion, haud]

/-- Claim C8 witness: in an environment where both validation collaborators
raise, the pipeline still returns the synthesized output with similarity 0
and detected emotion `"neutral"`. -/
theorem C8_validation_absorbed_witness :
    ((clone_voice envOkNoVal "hi" (some "r") none none "sad").1).1 = outputPath ∧
      ((clone_voice envOkNoVal "hi" (some "r") none none "sad").1).2.1 = 0 ∧
      ((clone_voice envOkNoVal "hi" (some "r") none none "sad").1).2.2 =
        "sad (✖ Got neutral)" := by
  have h := C8_validation_absorbed envOkNoVal "hi" (some "r") none none "sad"
    (fun _ => rfl) (fun _ _ _ => rfl) (by decide)
  exact ⟨h.1, h.2.2.1 rfl, (h.2.2.2 rfl).trans (by decide)⟩

/-- Claim C9: the emotion passed to the synthesizer never depends on the
reference audio — any two runs with the same text and requested emotion,
in environments that agree on the text classifier but may differ in
decoding, audio classification and embedding (i.e. different reference
audio), invoke the synthesizer with the same emotion. -/
theorem C9_emotion_ref_independent (e1 e2 : Env) (text tgt : String)
    (a1 a2 a3 b1 b2 b3 : Option String) (t1 t2 : String)
    (r1 r2 : List String) (em1 em2 : String)
    (htl : e1.textLabel = e2.textLabel)
    (h1 : Event.ttsCall t1 r1 em1 ∈ (clone_voice e1 text a1 a2 a3 tgt).2)
    (h2 : Event.ttsCall t2 r2 em2 ∈ (clone_voice e2 text b1 b2 b3 tgt).2) :
    em1 = em2 := by
  have g1 : em1 = resolveCanon e1 text tgt := by
    rcases clone_trace_events e1 text a1 a2 a3 tgt h1 with
      ⟨p, hp⟩ | ⟨p, hp⟩ | ⟨p, hp⟩ | hp | ⟨_, hp⟩ | ⟨r, hp⟩ <;> simp_all
  have g2 : em2 = resolveCanon e2 text tgt := by
    rcases clone_trace_events e2 text b1 b2 b3 tgt h2 with
      ⟨p, hp⟩ | ⟨p, hp⟩ | ⟨p, hp⟩ | hp | ⟨_, hp⟩ | ⟨r, hp⟩ <;> simp_all
  rw [g1, g2, resolveCanon_congr text tgt htl]

/-- Claim C9 witness: two runs with the same text, auto mode, the same text
classifier, but different reference sets and different audio collaborators
both invoke the synthesizer with emotion `"happy"`. -/
theorem C9_emotion_ref_independent_witness :
    Event.ttsCall "t" [processedPath 0] "happy" ∈
        (clone_voice envAllOk "t" (some "r") none none "").2 ∧
      Event.ttsCall "t" [processedPath 0, processedPath 1] "happy" ∈
        (clone_voice envB "t" (some "q") (some "w") none "").2 ∧
      "happy" = "happy" := by
  have m1 : Event.ttsCall "t" [processedPath 0] "happy" ∈
      (clone_voice envAllOk "t" (some "r") none none "").2 := by decide
  have m2 : Event.ttsCall "t" [processedPath 0, processedPath 1] "happy" ∈
      (clone_voice envB "t" (some "q") (some "w") none "").2 := by decide
  exact ⟨m1, m2,
    C9_emotion_ref_independent envAllOk envB "t" "" (some "r") none none
      (some "q") (some "w") none "t" "t" [processedPath 0]
      [processedPath 0, processedPath 1] "happy" "happy" rfl m1 m2⟩

/-- Claim C10: a non-empty requested emotion outside the taxonomy (e.g.
`"excited"`) resolves directly to `"neutral"`, the text-emotion classifier
is never invoked anywhere in the run, and the pipeline proceeds to invoke
the synthesizer with `"neutral"`. -/
theorem C10_unknown_override (env : Env) (text : String) (a1 a2 a3 : Option String)
    (req autoEmo : String) :
    (req ≠ "" → strLower req ∉ taxonomyList →
      (resolveEmotion env text autoEmo req).1 = "neutral") ∧
    (req ≠ "" → ∀ s, Event.textClassifyCall s ∉ (clone_voice env text a1 a2 a3 req).2) ∧
    ((∀ p, env.decode p = true) → (∀ t r e, env.ttsOk t r e = true) →
      selectedPaths a1 a2 a3 ≠ [] → req ≠ "" → strLower req ∉ taxonomyList →
      Event.ttsCall text (processedNames 0 (selectedPaths a1 a2 a3).length) "neutral" ∈
        (clone_voice env text a1 a2 a3 req).2) := by
  refine ⟨?_, ?_, ?_⟩
  · intro h1 h2
    have h3 : strLower req ≠ "" := fun hc => h1 (strLower_eq_empty hc)
    simp only [resolveEmotion, emotionOptionsGet, if_neg h1, if_neg h3]
    exact taxonomyGet_default h2
  · intro h1 s hmem
    rcases clone_trace_events env text a1 a2 a3 req hmem with
      ⟨p, hp⟩ | ⟨p, hp⟩ | ⟨p, hp⟩ | hp | ⟨htgt, hp⟩ | ⟨r, hp⟩ <;> simp_all
  · intro hd ht hne h1 h2
    have h3 : strLower req ≠ "" := fun hc => h1 (strLower_eq_empty hc)
    have hres : (resolveEmotion env text (extract_emotion env (processedPath 0)).1 req).1 =
        "neutral" := by
      simp only [resolveEmotion, emotionOptionsGet, if_neg h1, if_neg h3]
      exact taxonomyGet_default h2
    rw [clone_voice_ok env text a1 a2 a3 req hd ht hne, hres]
    simp [List.mem_append]

/-- Claim C10 witness: requested emotion `"excited"` resolves to
`"neutral"`, the text classifier is not called, and the synthesizer is
invoked with `"neutral"`. -/
theorem C10_unknown_override_witness :
    (resolveEmotion envAllOk "t" "neu" "excited").1 = "neutral" ∧
      Event.textClassifyCall "t" ∉
        (clone_voice envAllOk "t" (some "r") none none "excited").2 ∧
      Event.ttsCall "t" (processedNames 0 (selectedPaths (some "r") none none).length)
          "neutral" ∈ (clone_voice envAllOk "t" (some "r") none none "excited").2 := by
  have h := C10_unknown_override envAllOk "t" (some "r") none none "excited" "neu"
  exact ⟨h.1 (by decide) (by decide), h.2.1 (by decide) "t",
    h.2.2 (fun _ => rfl) (fun _ _ _ => rfl) (by decide) (by decide) (by decide)⟩
